import Mathlib

/-
Verification of the order-book CSV ingestion and daily-summary subsystem.

Shallow embedding of the Go sources:
  src/orderbooks/orderbook.go   (extractMetadata, LoadCSVFile, updateDailySummary,
                                 GetDailySummary)
  src/main.go                   (main, processFiles, processOrderBookFiles)
  src/pkg/profitLossGraph/reader.go (GetFileNameForDate)

Modelling conventions:
  - time.Time values produced by time.Parse with the fixed layouts used by the
    program (all in UTC, no DST) are modelled as a calendar record DateTime;
    instants are compared through a mixed-radix key that is order-isomorphic to
    chronological order on in-range field values.
  - Go strings are indexed by byte; every index the program uses falls on an
    ASCII character for the inputs under study, so symbols and fields are
    modelled as Lean strings / char lists (ASCII digit tests agree byte- and
    char-wise, since no byte of a multi-byte UTF-8 char lies in 0x30..0x39).
  - strconv.Atoi is modelled exactly on its decimal grammar, with int64
    saturation on range error (the Go code discards the error and keeps the
    saturated value).
  - strconv.ParseFloat results are modelled as exact rationals (plus Inf/NaN
    forms); binary rounding, hexadecimal float literals and digit-separating
    underscores are outside the model.  Only the parse-failure behaviour
    (value 0) is relied on by the claims.
  - The MongoDB store is modelled as in-memory lists; InsertMany appends in
    order, the aggregation pipeline is a fold over the matching documents,
    UpdateOne-with-upsert replaces the first document with the matching key or
    appends.  Run-time panics (out-of-range indexing, failed interface
    conversion of an aggregation result) are modelled as Except.error values:
    in both cases the call does not return normally and the store write that
    would follow does not happen.
-/

namespace OB

/-! ## Calendar time (model of time.Time values produced by the fixed layouts) -/

structure DateTime where
  year : Nat
  month : Nat
  day : Nat
  hour : Nat
  minute : Nat
  second : Nat
deriving DecidableEq, Repr

/-- Mixed-radix key; strictly monotone in lexicographic field order for
in-range fields (month ≤ 12, day ≤ 31, hour ≤ 23, minute, second ≤ 59),
hence chronological for the UTC instants the program constructs. -/
def DateTime.key (t : DateTime) : Nat :=
  ((((t.year * 13 + t.month) * 32 + t.day) * 24 + t.hour) * 60 + t.minute) * 60 + t.second

/-- The zero value time.Time\x7b\x7d : January 1, year 1, 00:00:00 UTC. -/
def zeroTime : DateTime := ⟨1, 1, 1, 0, 0, 0⟩

def isLeapYear (y : Nat) : Bool :=
  (y % 4 == 0 && y % 100 != 0) || (y % 400 == 0)

def daysInMonth (y m : Nat) : Nat :=
  if m = 2 then (if isLeapYear y then 29 else 28)
  else if m = 4 ∨ m = 6 ∨ m = 9 ∨ m = 11 then 30
  else 31

/-- time.Date(y, m, d, 0, 0, 0, 0, loc): midnight truncation used by
updateDailySummary and GetDailySummary. -/
def startOfDayOf (t : DateTime) : DateTime := ⟨t.year, t.month, t.day, 0, 0, 0⟩

/-- startOfDay.Add(24 * time.Hour) for a midnight UTC value: the next
calendar day's midnight (UTC has no DST transitions). -/
def addOneDay (t : DateTime) : DateTime :=
  if t.day < daysInMonth t.year t.month then ⟨t.year, t.month, t.day + 1, 0, 0, 0⟩
  else if t.month < 12 then ⟨t.year, t.month + 1, 1, 0, 0, 0⟩
  else ⟨t.year + 1, 1, 1, 0, 0, 0⟩

/-! ## Numeric text parsing (strconv) -/

def digitVal (c : Char) : Nat := c.toNat - 48

/-- Base-10 value of a digit list, most significant first. -/
def digitsVal (cs : List Char) : Nat :=
  cs.foldl (fun n c => n * 10 + digitVal c) 0

def maxInt64 : Int := 2 ^ 63 - 1
def minInt64 : Int := -(2 ^ 63)

/-- ParseInt clamps to the int64 range on a range error; the Go callers
discard the error, keeping the clamped value. -/
def clampInt64 (v : Int) : Int := max minInt64 (min v maxInt64)

/-- strconv.Atoi syntactic validity: optional sign then a nonempty digit
run, nothing else (base 10, bitSize 64: no underscores, no prefixes). -/
def atoiValid (s : String) : Bool :=
  match s.data with
  | [] => false
  | c :: rest =>
    if c = '+' ∨ c = '-' then !rest.isEmpty && rest.all Char.isDigit
    else (c :: rest).all Char.isDigit

/-- Value component of strconv.Atoi with the error discarded: 0 on a
syntax error, the int64-clamped value otherwise. -/
def goAtoi (s : String) : Int :=
  match s.data with
  | [] => 0
  | c :: rest =>
    if c = '+' then
      (if !rest.isEmpty && rest.all Char.isDigit then clampInt64 ((digitsVal rest : Int)) else 0)
    else if c = '-' then
      (if !rest.isEmpty && rest.all Char.isDigit then clampInt64 (-(digitsVal rest : Int)) else 0)
    else if (c :: rest).all Char.isDigit then clampInt64 ((digitsVal (c :: rest) : Int))
    else 0

/-- int32(x) conversion: two's-complement truncation. -/
def toInt32 (v : Int) : Int := (v + 2 ^ 31) % 2 ^ 32 - 2 ^ 31

def fitsInt32 (v : Int) : Bool := decide (-(2 ^ 31) ≤ v) && decide (v < 2 ^ 31)

/-- Result of strconv.ParseFloat, with finite values kept exact as rationals. -/
inductive GoFloat where
  | num (q : ℚ)
  | inf (neg : Bool)
  | nan
deriving DecidableEq, Repr

def splitSign : List Char → Bool × List Char
  | '+' :: r => (false, r)
  | '-' :: r => (true, r)
  | l => (false, l)

/-- Optional exponent part: end of input, or e/E then optional sign then a
nonempty digit run reaching the end of the input. -/
def parseExp : List Char → Option Int
  | [] => some 0
  | c :: r =>
    if c = 'e' ∨ c = 'E' then
      let (neg, ds) := splitSign r
      if !ds.isEmpty && ds.all Char.isDigit then
        some (if neg then -(digitsVal ds : Int) else (digitsVal ds : Int))
      else none
    else none

/-- Unsigned decimal mantissa with optional fraction and exponent
(digits [. digits] [exp] with at least one mantissa digit). -/
def parseDec (cs : List Char) : Option ℚ :=
  let ip := cs.takeWhile Char.isDigit
  let r1 := cs.dropWhile Char.isDigit
  match r1 with
  | '.' :: r2 =>
    let fp := r2.takeWhile Char.isDigit
    let r3 := r2.dropWhile Char.isDigit
    if ip.isEmpty && fp.isEmpty then none
    else
      match parseExp r3 with
      | some e => some ((digitsVal (ip ++ fp) : ℚ) * (10 : ℚ) ^ (e - (fp.length : Int)))
      | none => none
  | r =>
    if ip.isEmpty then none
    else
      match parseExp r with
      | some e => some ((digitsVal ip : ℚ) * (10 : ℚ) ^ e)
      | none => none

/-- strconv.ParseFloat on the decimal grammar plus the Inf/Infinity/NaN
special forms; none models a syntax error. -/
def parseFloatE (s : String) : Option GoFloat :=
  let (neg, body) := splitSign s.data
  let lower := body.map Char.toLower
  if lower = "inf".data ∨ lower = "infinity".data then some (GoFloat.inf neg)
  else if s.data.map Char.toLower = "nan".data then some GoFloat.nan
  else
    match parseDec body with
    | some q => some (GoFloat.num (if neg then -q else q))
    | none => none

/-- Value component of ParseFloat with the error discarded: 0 on failure. -/
def goParseFloat (s : String) : GoFloat :=
  (parseFloatE s).getD (GoFloat.num 0)

/-! ## Fixed-layout timestamp parsing (time.Parse) -/

/-- time.Parse("2006-01-02T15:04:05Z", s): the layout demands exactly
4-2-2 date digits, a literal T, 2-2-2 time digits and a literal trailing Z
(a bare Z in a layout is a literal, not a zone marker), with the range
checks time.Parse performs on each field. -/
def parseTimestamp (s : String) : Option DateTime :=
  match s.data with
  | [y1, y2, y3, y4, '-', mo1, mo2, '-', d1, d2, 'T', h1, h2, ':', mi1, mi2, ':', s1, s2, 'Z'] =>
    if (y1.isDigit && y2.isDigit && y3.isDigit && y4.isDigit &&
        mo1.isDigit && mo2.isDigit && d1.isDigit && d2.isDigit &&
        h1.isDigit && h2.isDigit && mi1.isDigit && mi2.isDigit &&
        s1.isDigit && s2.isDigit) then
      let y := digitsVal [y1, y2, y3, y4]
      let mo := digitsVal [mo1, mo2]
      let d := digitsVal [d1, d2]
      let h := digitsVal [h1, h2]
      let mi := digitsVal [mi1, mi2]
      let sec := digitsVal [s1, s2]
      if 1 ≤ mo && mo ≤ 12 && 1 ≤ d && d ≤ daysInMonth y mo &&
         h ≤ 23 && mi ≤ 59 && sec ≤ 59 then
        some ⟨y, mo, d, h, mi, sec⟩
      else none
    else none
  | _ => none

/-- time.Parse("2006-01-02", s), used by processFiles on the -date flag. -/
def parseDateYMD (s : String) : Option DateTime :=
  match s.data with
  | [y1, y2, y3, y4, '-', mo1, mo2, '-', d1, d2] =>
    if (y1.isDigit && y2.isDigit && y3.isDigit && y4.isDigit &&
        mo1.isDigit && mo2.isDigit && d1.isDigit && d2.isDigit) then
      let y := digitsVal [y1, y2, y3, y4]
      let mo := digitsVal [mo1, mo2]
      let d := digitsVal [d1, d2]
      if 1 ≤ mo && mo ≤ 12 && 1 ≤ d && d ≤ daysInMonth y mo then
        some ⟨y, mo, d, 0, 0, 0⟩
      else none
    else none
  | _ => none

/-! ## extractMetadata (orderbook.go lines 89-109) -/

/-- The strike-price loop: i walks the symbol from its last character
backwards; digit characters are skipped (collected here in acc, most
significant first, mirroring the suffix symbol[i+1:]); at the first
non-digit, Atoi of the suffix is taken when the suffix is nonempty
(i+1 < len) and the loop breaks.  Falling off the front of the symbol
(all characters digits, or empty symbol) never reaches the break, so the
initial value 0 is kept. -/
def strikeLoop (acc : List Char) : List Char → Int
  | [] => 0
  | c :: rest =>
    if c.isDigit then strikeLoop (c :: acc) rest
    else if acc.isEmpty then 0
    else goAtoi (String.mk acc)

/-- Strike price component of extractMetadata, defined on every symbol
(the Go loop itself indexes safely for every length). -/
def strikePriceOf (symbol : String) : Int :=
  strikeLoop [] symbol.data.reverse

/-- extractMetadata: (strike price, option type).  The option-type test
reads symbol[len(symbol)-5]; for len(symbol) < 5 that index is negative
and the Go program panics, modelled as none. -/
def extractMetadata (symbol : String) : Option (Int × String) :=
  if 5 ≤ symbol.data.length then
    some (strikePriceOf symbol,
      if symbol.data.getD (symbol.data.length - 5) ' ' = 'P' then "P" else "C")
  else none

/-- The maximal trailing run of digit characters of a symbol (in source
order), as the spec describes the intended strike-price scan. -/
def trailingRun (s : String) : List Char :=
  (s.data.reverse.takeWhile Char.isDigit).reverse

/-- Strike price as the spec words it (claim C2): the trailing digit run
parsed as an integer, 0 when the run is empty. -/
def specTrailingStrike (s : String) : Int :=
  if trailingRun s = [] then 0 else (digitsVal (trailingRun s) : Int)

/-! ## Data model (orderbook.go Order / DailySummary) and the store -/

/-- One decoded order row.  quantity carries the int32(quantity)
truncation; averagePrice the ParseFloat result; timestamp3 is declared in
the Go struct but never assigned by the decoder (zero value).  The Go
MetaData sub-struct is flattened into strikePrice / optionType. -/
structure Order where
  timestamp : DateTime
  transactionType : String
  symbol : String
  product : String
  quantity : Int
  averagePrice : GoFloat
  orderStatus : String
  timestamp3 : Int
  strikePrice : Int
  optionType : String
deriving DecidableEq, Repr

structure DailySummary where
  date : DateTime
  totalTrades : Int
  totalBuyQuantity : Int
  totalSellQuantity : Int
  uniqueSymbols : Int
  lastUpdated : DateTime
deriving DecidableEq, Repr

/-- The MongoDB state touched by this subsystem: the orders collection and
the daily-summary collection, as document lists in insertion order. -/
structure Store where
  orders : List Order
  summaries : List DailySummary
deriving DecidableEq, Repr

/-! ## CSV decoding (LoadCSVFile row loop, orderbook.go lines 128-161) -/

/-- One row as csv.Reader delivers it: a field list, or a structural read
error (for example ErrFieldCount).  The row loop breaks on any read
error, end-of-file included. -/
inductive RawRow where
  | ok (fields : List String)
  | malformed
deriving DecidableEq, Repr

/-- Decode one data row: record[0..6] are printed (a record shorter than
7 fields panics on indexing, modelled as an error result since the call
never returns normally and nothing is persisted), the timestamp is parsed
with the fixed layout (failure fails the file), quantity and price parse
failures are discarded leaving 0, and extractMetadata runs on the symbol
(panicking — error here — when the symbol is shorter than 5 bytes). -/
def decodeRow (fields : List String) : Except String Order :=
  if fields.length < 7 then .error "panic: runtime error: index out of range"
  else
    match parseTimestamp (fields.getD 0 "") with
    | none => .error "failed to parse timestamp"
    | some ts =>
      let quantity := toInt32 (goAtoi (fields.getD 4 ""))
      let price := goParseFloat (fields.getD 5 "")
      match extractMetadata (fields.getD 2 "") with
      | none => .error "panic: runtime error: index out of range in extractMetadata"
      | some pair =>
        .ok { timestamp := ts
              transactionType := fields.getD 1 ""
              symbol := fields.getD 2 ""
              product := fields.getD 3 ""
              quantity := quantity
              averagePrice := price
              orderStatus := fields.getD 6 ""
              timestamp3 := 0
              strikePrice := pair.1
              optionType := pair.2 }

/-- The row loop: read rows until a read error (silently breaking the
loop, keeping what was collected) or a decode failure (failing the whole
file).  Returns the decoded orders in file order together with tradeDate,
the timestamp of the last successfully parsed row (time.Time zero value
when no row was parsed). -/
def decodeRows : List RawRow → Except String (List Order × DateTime)
  | [] => .ok ([], zeroTime)
  | .malformed :: _ => .ok ([], zeroTime)
  | .ok fields :: rest =>
    match decodeRow fields with
    | .error e => .error e
    | .ok o =>
      match decodeRows rest with
      | .error e => .error e
      | .ok (os, td) => .ok (o :: os, if os.isEmpty then o.timestamp else td)

/-! ## Day aggregation (updateDailySummary, orderbook.go lines 178-247) -/

/-- Result document of the $group stage (_id omitted). -/
structure GroupResult where
  total_trades : Int
  total_buy_quantity : Int
  total_sell_quantity : Int
  unique_symbols : List String
deriving DecidableEq, Repr

/-- $match condition: startOfDay ≤ timestamp < endOfDay. -/
def inDay (sod eod : DateTime) (o : Order) : Bool :=
  decide (sod.key ≤ o.timestamp.key) && decide (o.timestamp.key < eod.key)

/-- $addToSet accumulator. -/
def addToSet (s : String) (l : List String) : List String :=
  if s ∈ l then l else s :: l

/-- The $group stage over the matched documents: count, conditional
quantity sums keyed on transaction_type = "B" / "S", and the distinct
symbol set. -/
def groupOrders : List Order → GroupResult
  | [] => ⟨0, 0, 0, []⟩
  | o :: rest =>
    let g := groupOrders rest
    ⟨g.total_trades + 1,
     g.total_buy_quantity + (if o.transactionType = "B" then o.quantity else 0),
     g.total_sell_quantity + (if o.transactionType = "S" then o.quantity else 0),
     addToSet o.symbol g.unique_symbols⟩

/-- The orders matched by the aggregation pipeline run for a reference
timestamp: timestamps within the calendar day of the reference value. -/
def matchingOrders (st : Store) (date : DateTime) : List Order :=
  let sod := startOfDayOf date
  st.orders.filter (inDay sod (addOneDay sod))

/-- UpdateOne(filter date = startOfDay, $set summary, upsert): replace
the first document matching the key, append when none matches. -/
def upsertSummary : List DailySummary → DailySummary → List DailySummary
  | [], s => [s]
  | t :: rest, s => if t.date = s.date then s :: rest else t :: upsertSummary rest s

/-- updateDailySummary: aggregate the calendar day of the given reference
timestamp and upsert a DailySummary keyed by startOfDay.  The pipeline
yields one group document exactly when at least one order matched; with
no result document no write happens.  The summary is built by int32 type
assertions on the group sums — a value outside int32 (delivered as int64
by the driver) makes the assertion panic, modelled as an error before any
write.  UniqueSymbols is left at its zero value: the assignment from the
computed unique_symbols set is commented out in the source.  LastUpdated
is time.Now(), threaded in as the parameter now. -/
def updateDailySummary (st : Store) (date now : DateTime) : Except String Store :=
  let sod := startOfDayOf date
  let matching := matchingOrders st date
  if matching.isEmpty then .ok st
  else
    let g := groupOrders matching
    if fitsInt32 g.total_trades && fitsInt32 g.total_buy_quantity &&
       fitsInt32 g.total_sell_quantity then
      .ok { st with
            summaries := upsertSummary st.summaries
              { date := sod
                totalTrades := g.total_trades
                totalBuyQuantity := g.total_buy_quantity
                totalSellQuantity := g.total_sell_quantity
                uniqueSymbols := 0
                lastUpdated := now } }
    else .error "panic: interface conversion: interface is int64, not int32"

/-- GetDailySummary: point lookup keyed by the midnight truncation of the
queried date; absence is an error, not a zero summary. -/
def getDailySummary (st : Store) (date : DateTime) : Except String DailySummary :=
  let sod := startOfDayOf date
  match st.summaries.find? (fun s => s.date == sod) with
  | some s => .ok s
  | none => .error "failed to get daily summary: mongo: no documents in result"

/-- LoadCSVFile after the header row: decode all rows, then (only when at
least one order was decoded) InsertMany the batch and update the daily
summary anchored at tradeDate.  Returns the store as left by the call
together with the error, if any: a decode failure leaves the store
untouched, while a summary failure happens after the bulk insert has
already been committed. -/
def loadCSVFile (rows : List RawRow) (now : DateTime) (st : Store) : Store × Option String :=
  match decodeRows rows with
  | .error e => (st, some e)
  | .ok (orders, tradeDate) =>
    if orders.isEmpty then (st, none)
    else
      let st1 : Store := { st with orders := st.orders ++ orders }
      match updateDailySummary st1 tradeDate now with
      | .error e => (st1, some ("failed to update daily summary: " ++ e))
      | .ok st2 => (st2, none)

/-! ## Top-level orchestration (main.go) -/

/-- Outcome of one process invocation: a log.Fatalf termination (process
reported failed) or a normal completion with the failure lines printed
along the way. -/
inductive MainResult where
  | fatal (msg : String)
  | completed (logs : List String)
deriving DecidableEq, Repr

def MainResult.isFatal : MainResult → Bool
  | .fatal _ => true
  | .completed _ => false

def exceptIsOk : Except String Unit → Bool
  | .ok _ => true
  | .error _ => false

/-- processFiles: parse the -date flag with layout 2006-01-02 (failure is
the only error this function returns); then run the orderbook path and
the profit/loss path, each failure being printed with fmt.Println and
swallowed.  Results of the two paths enter as parameters; the returned
pair is (function result, lines printed for swallowed failures). -/
def processFiles (dateStr : String) (obResult plResult : Except String Unit) :
    Except String Unit × List String :=
  match parseDateYMD dateStr with
  | none => (.error "invalid date format", [])
  | some _ =>
    let logs1 := match obResult with
      | .error e => ["failed to process orderbook files: " ++ e]
      | .ok _ => []
    let logs2 := match plResult with
      | .error e => ["failed to process profit/loss file: " ++ e]
      | .ok _ => []
    (.ok (), logs1 ++ logs2)

/-- main: NewOrderBook, NewRepository and the initial
GetProfitLossByDateRange each log.Fatalf on failure; then processFiles
log.Fatalf's when it returns an error.  The outcomes of the external
calls enter as parameters. -/
def mainInvocation (connectResult plRepoResult getPLResult : Except String Unit)
    (dateStr : String) (obResult plResult : Except String Unit) : MainResult :=
  match connectResult with
  | .error e => .fatal ("Failed to initialize OrderBook: " ++ e)
  | .ok _ =>
    match plRepoResult with
    | .error e => .fatal ("Failed to initialize ProfitLoss repository: " ++ e)
    | .ok _ =>
      match getPLResult with
      | .error e => .fatal ("Failed to get profit loss: " ++ e)
      | .ok _ =>
        match processFiles dateStr obResult plResult with
        | (.error e, _) => .fatal ("Failed to process files: " ++ e)
        | (.ok _, logs) => .completed logs

/-! ## File-name rendering (main.go line 125, profitLossGraph/reader.go) -/

/-- fmt %02d on a nonnegative value: zero-pad to two digits. -/
def sprintf02d (n : Nat) : String :=
  if n < 10 then "0" ++ Nat.repr n else Nat.repr n

/-- The year field of layout 2006 (stdLongYear): zero-padded to four
digits. -/
def sprintfYear4 (n : Nat) : String :=
  if n < 10 then "000" ++ Nat.repr n
  else if n < 100 then "00" ++ Nat.repr n
  else if n < 1000 then "0" ++ Nat.repr n
  else Nat.repr n

/-- processDate.Format("02-01-2006"). -/
def goFormatDDMMYYYY (d : DateTime) : String :=
  sprintf02d d.day ++ "-" ++ sprintf02d d.month ++ "-" ++ sprintfYear4 d.year

/-- The glob pattern built by processOrderBookFiles. -/
def orderBookPattern (d : DateTime) : String :=
  "orderbook_*" ++ goFormatDDMMYYYY d ++ "*.csv"

/-- GetFileNameForDate: Sprintf("profitLoss_%02d-%02d-%d.csv", day,
month, year) — the year is rendered with plain %d, no width. -/
def GetFileNameForDate (d : DateTime) : String :=
  "profitLoss_" ++ sprintf02d d.day ++ "-" ++ sprintf02d d.month ++ "-" ++
    Nat.repr d.year ++ ".csv"

/-- Date rendering the claim C8 asserts for the profit/loss file name:
DD-MM-YY with a two-digit year. -/
def renderDDMMYY (d : DateTime) : String :=
  sprintf02d d.day ++ "-" ++ sprintf02d d.month ++ "-" ++ sprintf02d (d.year % 100)

/-- DD-MM-YYYY rendering, as the spec words the order-book variant. -/
def renderDDMMYYYY (d : DateTime) : String :=
  sprintf02d d.day ++ "-" ++ sprintf02d d.month ++ "-" ++ sprintfYear4 d.year

/-! ## Concrete inputs used by the witnesses -/

def wDay : DateTime := ⟨2025, 1, 18, 10, 0, 0⟩
def wNow : DateTime := ⟨2025, 1, 18, 23, 59, 0⟩

/-- An order on 18 Jan 2025 with the given side, symbol, quantity and
time of day. -/
def mkOrder (tt sym : String) (q : Int) (h mi : Nat) : Order :=
  { timestamp := ⟨2025, 1, 18, h, mi, 0⟩
    transactionType := tt
    symbol := sym
    product := "OPT"
    quantity := q
    averagePrice := GoFloat.num 0
    orderStatus := "COMPLETE"
    timestamp3 := 0
    strikePrice := 9000
    optionType := "P" }

/-- A day holding the rows Buy 10, Buy 5, Sell 7 (spec section 8 example). -/
def wStoreBuySell : Store :=
  ⟨[mkOrder "B" "NIFTYP9000" 10 9 15, mkOrder "B" "NIFTYP9000" 5 10 0,
    mkOrder "S" "NIFTYP9000" 7 11 30], []⟩

/-- A day whose orders carry two distinct symbols. -/
def wStoreTwoSymbols : Store :=
  ⟨[mkOrder "B" "NIFTYP9000" 10 9 15, mkOrder "S" "BANKP40000" 7 11 30], []⟩

/-- A well-formed CSV data row. -/
def wRow1 : List String :=
  ["2025-01-18T09:30:00Z", "B", "NIFTYP9000", "OPT", "10", "p", "COMPLETE"]

/-- The order wRow1 decodes to. -/
def wOrder1 : Order :=
  { timestamp := ⟨2025, 1, 18, 9, 30, 0⟩
    transactionType := "B"
    symbol := "NIFTYP9000"
    product := "OPT"
    quantity := 10
    averagePrice := GoFloat.num 0
    orderStatus := "COMPLETE"
    timestamp3 := 0
    strikePrice := 9000
    optionType := "P" }

/-- The summary an ingestion of wRow1 alone writes. -/
def wSummary1 : DailySummary :=
  { date := ⟨2025, 1, 18, 0, 0, 0⟩
    totalTrades := 1
    totalBuyQuantity := 10
    totalSellQuantity := 0
    uniqueSymbols := 0
    lastUpdated := wNow }

end OB

namespace OB

/-! ## Helper lemmas -/

theorem isDigit_ne_plus {c : Char} (h : c.isDigit = true) : ¬c = '+' := by
  intro he; subst he; simp [Char.isDigit] at h

theorem isDigit_ne_minus {c : Char} (h : c.isDigit = true) : ¬c = '-' := by
  intro he; subst he; simp [Char.isDigit] at h

/-- goAtoi on a nonempty all-digit string is the clamped digit value. -/
theorem goAtoi_digits (cs : List Char) (hne : cs ≠ []) (hd : cs.all Char.isDigit = true) :
    goAtoi (String.mk cs) = clampInt64 ((digitsVal cs : Int)) := by
  match cs, hne with
  | c :: rest, _ =>
    have hc : c.isDigit = true := by
      have := List.all_eq_true.1 hd c (by simp)
      simpa using this
    simp only [goAtoi]
    rw [if_neg (isDigit_ne_plus hc), if_neg (isDigit_ne_minus hc), if_pos hd]

/-- Closed form of the strike-price loop: 0 when the loop runs off the
front of the symbol (every character a digit), otherwise Atoi of the
digits collected before the first non-digit (prepended to the initial
accumulator), or 0 when none were collected. -/
theorem strikeLoop_eq (rev : List Char) : ∀ acc : List Char,
    strikeLoop acc rev =
      if rev.all Char.isDigit then 0
      else if ((rev.takeWhile Char.isDigit).reverse ++ acc).isEmpty then 0
      else goAtoi (String.mk ((rev.takeWhile Char.isDigit).reverse ++ acc)) := by
  induction rev with
  | nil => intro acc; simp [strikeLoop]
  | cons c r ih =>
    intro acc
    by_cases hc : c.isDigit = true
    · rw [show strikeLoop acc (c :: r) = strikeLoop (c :: acc) r by simp [strikeLoop, hc]]
      rw [ih (c :: acc)]
      simp [hc, List.takeWhile_cons, List.append_assoc]
    · have hc' : c.isDigit = false := by simpa using hc
      simp [strikeLoop, hc', List.takeWhile_cons]

/-- A row whose timestamp text does not parse never decodes. -/
theorem decodeRow_error_of_bad_ts (fields : List String)
    (h : parseTimestamp (fields.getD 0 "") = none) :
    ∃ e, decodeRow fields = .error e := by
  rw [decodeRow]
  by_cases hl : fields.length < 7
  · exact ⟨_, by rw [if_pos hl]⟩
  · rw [if_neg hl, h]
    exact ⟨_, rfl⟩

/-- If some readable row has an unparsable timestamp, the whole decode
pass fails (whatever failure comes first). -/
theorem decodeRows_error_of_bad_ts (rows : List (List String))
    (h : ∃ r ∈ rows, parseTimestamp (r.getD 0 "") = none) :
    ∃ e, decodeRows (rows.map RawRow.ok) = .error e := by
  induction rows with
  | nil => simp at h
  | cons r rest ih =>
    obtain ⟨x, hx, hbad⟩ := h
    rcases List.mem_cons.1 hx with hxr | hxrest
    · subst hxr
      obtain ⟨e, he⟩ := decodeRow_error_of_bad_ts x hbad
      exact ⟨e, by simp [decodeRows, he]⟩
    · cases hdr : decodeRow r with
      | error e => exact ⟨e, by simp [decodeRows, hdr]⟩
      | ok o =>
        obtain ⟨e, he⟩ := ih ⟨x, hxrest, hbad⟩
        exact ⟨e, by simp [decodeRows, hdr, he]⟩

theorem goAtoi_invalid (s : String) (h : atoiValid s = false) : goAtoi s = 0 := by
  obtain ⟨data⟩ := s
  match data with
  | [] => rfl
  | c :: rest =>
    simp only [atoiValid] at h
    simp only [goAtoi]
    by_cases hp : c = '+'
    · rw [if_pos (Or.inl hp)] at h
      rw [if_pos hp, h]; rfl
    · by_cases hm : c = '-'
      · rw [if_pos (Or.inr hm)] at h
        rw [if_neg hp, if_pos hm, h]; rfl
      · rw [if_neg (by tauto)] at h
        rw [if_neg hp, if_neg hm, h]; rfl

theorem toInt32_zero : toInt32 0 = 0 := by decide

/-- The $sum: 1 accumulator counts the matched documents. -/
theorem groupOrders_trades (l : List Order) :
    (groupOrders l).total_trades = l.length := by
  induction l with
  | nil => rfl
  | cons o rest ih => simp [groupOrders, ih]

/-- The conditional buy accumulator sums quantity over side-B documents. -/
theorem groupOrders_buy (l : List Order) :
    (groupOrders l).total_buy_quantity =
      ((l.filter (fun o => o.transactionType == "B")).map Order.quantity).sum := by
  induction l with
  | nil => rfl
  | cons o rest ih =>
    simp only [groupOrders, List.filter_cons]
    by_cases h : o.transactionType = "B"
    · simp [h, ih]; ring
    · simp [h, ih]

/-- The conditional sell accumulator sums quantity over side-S documents. -/
theorem groupOrders_sell (l : List Order) :
    (groupOrders l).total_sell_quantity =
      ((l.filter (fun o => o.transactionType == "S")).map Order.quantity).sum := by
  induction l with
  | nil => rfl
  | cons o rest ih =>
    simp only [groupOrders, List.filter_cons]
    by_cases h : o.transactionType = "S"
    · simp [h, ih]; ring
    · simp [h, ih]

/-- After an upsert keyed by s.date, a point lookup with that key finds
exactly the upserted document. -/
theorem find?_upsertSummary (l : List DailySummary) (s : DailySummary) (k : DateTime)
    (hk : s.date = k) :
    (upsertSummary l s).find? (fun t => t.date == k) = some s := by
  induction l with
  | nil => simp [upsertSummary, List.find?, hk]
  | cons t rest ih =>
    by_cases h : t.date = s.date
    · simp [upsertSummary, h, List.find?, hk]
    · have hne : (t.date == k) = false := by
        subst hk; simpa using h
      simp [upsertSummary, h, List.find?, hne, ih]

/-- The aggregation step never touches the orders collection. -/
theorem updateDailySummary_orders (st : Store) (date now : DateTime) (st2 : Store)
    (h : updateDailySummary st date now = .ok st2) : st2.orders = st.orders := by
  simp only [updateDailySummary] at h
  by_cases h1 : (matchingOrders st date).isEmpty
  · rw [if_pos h1] at h
    cases h; rfl
  · rw [if_neg h1] at h
    by_cases h2 : (fitsInt32 (groupOrders (matchingOrders st date)).total_trades &&
        fitsInt32 (groupOrders (matchingOrders st date)).total_buy_quantity &&
        fitsInt32 (groupOrders (matchingOrders st date)).total_sell_quantity) = true
    · rw [if_pos h2] at h
      cases h; rfl
    · rw [if_neg h2] at h
      cases h

/-- The row loop never sees anything past the first read error: decoding
a row list with a malformed row inserted equals decoding the part before
it. -/
theorem decodeRows_append_malformed (xs rest : List RawRow) :
    decodeRows (xs ++ RawRow.malformed :: rest) = decodeRows xs := by
  induction xs with
  | nil => rfl
  | cons x tail ih =>
    cases x with
    | malformed => rfl
    | ok fields =>
      rw [List.cons_append]
      simp only [decodeRows, ih]

end OB

namespace OB

/-! ## Claim theorems -/

/-- C1 counterexample: on the symbol NIFTY25JAN18000CE the extractor
returns strike price 0 (the symbol ends in a letter, so the backward
digit scan breaks at once), not 18000; and on NIFTY25JAN18000PE it
returns option type C (the character at position length-5 is the strike
digit 0, not P), not P. -/
theorem c1_counterexample :
    extractMetadata "NIFTY25JAN18000CE" = some (0, "C") ∧
    extractMetadata "NIFTY25JAN18000PE" = some (0, "C") ∧
    (some ((0 : Int), "C") ≠ some ((18000 : Int), "C")) ∧
    (some ((0 : Int), "C") ≠ some ((0 : Int), "P")) := by
  refine ⟨by decide, by decide, by decide, by decide⟩

/-- C1 amended: the metadata extractor, applied to NIFTY25JAN18000CE,
returns strikePrice 0 and optionType Call; applied to NIFTY25JAN18000PE
it also returns strikePrice 0 and optionType Call, because the character
at position length-5 is the digit 0, not P.  (The symbol convention the
code supports puts C or P five characters before the end, in front of a
four-digit strike: on NIFTYP9000 it returns (9000, Put).) -/
theorem c1_extractMetadata_examples :
    extractMetadata "NIFTY25JAN18000CE" = some (0, "C") ∧
    extractMetadata "NIFTY25JAN18000PE" = some (0, "C") ∧
    extractMetadata "NIFTYP9000" = some (9000, "P") := by
  refine ⟨by decide, by decide, by decide⟩

/-- C2 counterexample: for the all-digit symbol 1800000 the claim demands
strikePrice 1800000 (the trailing digit run is the whole string), but the
extractor returns 0 — the backward scan only assigns a strike when it
meets a non-digit with a nonempty suffix, and falling off the front keeps
the initial 0. -/
theorem c2_counterexample :
    extractMetadata "1800000" = some (0, "C") ∧
    specTrailingStrike "1800000" = 1800000 ∧
    ((0 : Int) ≠ 1800000) := by
  refine ⟨by decide, by decide, by decide⟩

/-- C2 amended: for every symbol, the extractor strike price is 0 when
the maximal trailing digit run is empty or when the symbol consists
entirely of digits (the scan then never breaks and keeps 0); otherwise it
is the run parsed as an integer, saturated to the int64 range (Atoi's
range error is discarded together with its clamped value). -/
theorem c2_strikePrice_trailing_run :
    ∀ s : String,
      strikePriceOf s =
        if trailingRun s = [] ∨ s.data.all Char.isDigit then 0
        else clampInt64 ((digitsVal (trailingRun s) : Int)) := by
  intro s
  rw [strikePriceOf, strikeLoop_eq]
  by_cases hall : s.data.all Char.isDigit = true
  · have : s.data.reverse.all Char.isDigit = true := by
      simpa [List.all_eq_true, List.mem_reverse] using List.all_eq_true.1 hall
    rw [if_pos this, if_pos (Or.inr hall)]
  · have hrev : ¬s.data.reverse.all Char.isDigit = true := by
      intro h; exact hall (by simpa [List.all_eq_true, List.mem_reverse] using List.all_eq_true.1 h)
    rw [if_neg hrev]
    have hrun : (s.data.reverse.takeWhile Char.isDigit).reverse ++ ([] : List Char) = trailingRun s := by
      simp [trailingRun]
    rw [hrun]
    by_cases hempty : trailingRun s = []
    · simp [hempty, hall]
    · have h1 : (trailingRun s).isEmpty = false := by
        simpa [List.isEmpty_iff] using hempty
      rw [if_neg (by simp [h1]), if_neg (by simp [hempty, hall])]
      exact goAtoi_digits _ hempty (by
        simp only [List.all_eq_true]
        intro x hx
        have hx' : x ∈ s.data.reverse.takeWhile Char.isDigit := by
          simpa [trailingRun, List.mem_reverse] using hx
        exact List.mem_takeWhile_imp hx')

/-- C3: for every CSV file whose readable data rows include one whose
timestamp column does not parse under the fixed layout, LoadCSVFile
returns an error and leaves the store exactly as it was: the bulk insert
and the daily-summary update happen only after the whole scan succeeds.
(Rows cut off by a CSV-structural read error before the bad row are the
separate situation of claim C10.) -/
theorem c3_bad_timestamp_aborts_file (rows : List (List String)) (st : Store) (now : DateTime)
    (h : ∃ r ∈ rows, parseTimestamp (r.getD 0 "") = none) :
    ∃ e, loadCSVFile (rows.map RawRow.ok) now st = (st, some e) := by
  obtain ⟨e, he⟩ := decodeRows_error_of_bad_ts rows h
  exact ⟨e, by simp [loadCSVFile, he]⟩

theorem c3_witness :
    (∃ r ∈ [["bad-ts", "B", "NIFTYP9000", "OPT", "10", "p", "OK"],
            ["2025-01-18T09:30:00Z", "B", "NIFTYP9000", "OPT", "10", "p", "OK"]],
        parseTimestamp (r.getD 0 "") = none) ∧
    ∃ e, loadCSVFile
        ([["bad-ts", "B", "NIFTYP9000", "OPT", "10", "p", "OK"],
          ["2025-01-18T09:30:00Z", "B", "NIFTYP9000", "OPT", "10", "p", "OK"]].map RawRow.ok)
        ⟨2025, 1, 18, 23, 0, 0⟩ ⟨[], []⟩ = (⟨[], []⟩, some e) := by
  refine ⟨⟨["bad-ts", "B", "NIFTYP9000", "OPT", "10", "p", "OK"], by simp, by decide⟩, ?_⟩
  exact c3_bad_timestamp_aborts_file _ _ _
    ⟨["bad-ts", "B", "NIFTYP9000", "OPT", "10", "p", "OK"], by simp, by decide⟩

/-- C4: a data row whose quantity or average-price text is not valid
numeric syntax (while its timestamp parses, the record has the 7 columns
the row handler indexes, and the symbol is long enough for the
metadata heuristic) decodes without error, and the resulting order
carries quantity 0, respectively average price 0: strconv's failure
values are kept and the errors discarded. -/
theorem c4_numeric_parse_failures_zero (fields : List String)
    (h7 : 7 ≤ fields.length)
    (hts : (parseTimestamp (fields.getD 0 "")).isSome = true)
    (hsym : 5 ≤ (fields.getD 2 "").data.length) :
    ∃ o, decodeRow fields = .ok o ∧
      (atoiValid (fields.getD 4 "") = false → o.quantity = 0) ∧
      (parseFloatE (fields.getD 5 "") = none → o.averagePrice = GoFloat.num 0) := by
  obtain ⟨ts, hts'⟩ := Option.isSome_iff_exists.1 hts
  have hlen : ¬fields.length < 7 := by omega
  rw [decodeRow, if_neg hlen, hts']
  unfold extractMetadata
  rw [if_pos hsym]
  refine ⟨_, rfl, fun hq => ?_, fun hp => ?_⟩
  · show toInt32 (goAtoi (fields.getD 4 "")) = 0
    rw [goAtoi_invalid _ hq, toInt32_zero]
  · show goParseFloat (fields.getD 5 "") = GoFloat.num 0
    rw [goParseFloat, hp]
    rfl

theorem c4_witness :
    ∃ o, decodeRow ["2025-01-18T10:00:00Z", "B", "NIFTYP9000", "OPT", "abc", "x1z", "COMPLETE"]
        = .ok o ∧ o.quantity = 0 ∧ o.averagePrice = GoFloat.num 0 := by
  obtain ⟨o, h1, h2, h3⟩ := c4_numeric_parse_failures_zero
    ["2025-01-18T10:00:00Z", "B", "NIFTYP9000", "OPT", "abc", "x1z", "COMPLETE"]
    (by decide) (by decide) (by decide)
  exact ⟨o, h1, h2 (by decide), h3 (by decide)⟩

/-- C5: for every reference timestamp, the aggregator restricts the store
to the orders of that calendar day ([startOfDay, startOfDay + 24h)) and,
when the day is nonempty and the totals survive the int32 conversions,
the summary readable for that day afterwards has totalTrades = number of
matching orders, totalBuyQuantity = sum of quantity over side-B matches,
totalSellQuantity = sum of quantity over side-S matches (witness: the
rows Buy 10, Buy 5, Sell 7 yield 3 / 15 / 7). -/
theorem c5_daily_aggregation (st : Store) (date now : DateTime)
    (hne : (matchingOrders st date).isEmpty = false)
    (hfit1 : fitsInt32 ((matchingOrders st date).length) = true)
    (hfit2 : fitsInt32 (((matchingOrders st date).filter
        (fun o => o.transactionType == "B")).map Order.quantity).sum = true)
    (hfit3 : fitsInt32 (((matchingOrders st date).filter
        (fun o => o.transactionType == "S")).map Order.quantity).sum = true) :
    ∃ st2, updateDailySummary st date now = .ok st2 ∧
      getDailySummary st2 date = .ok
        { date := startOfDayOf date
          totalTrades := (matchingOrders st date).length
          totalBuyQuantity := (((matchingOrders st date).filter
            (fun o => o.transactionType == "B")).map Order.quantity).sum
          totalSellQuantity := (((matchingOrders st date).filter
            (fun o => o.transactionType == "S")).map Order.quantity).sum
          uniqueSymbols := 0
          lastUpdated := now } := by
  have hg1 := groupOrders_trades (matchingOrders st date)
  have hg2 := groupOrders_buy (matchingOrders st date)
  have hg3 := groupOrders_sell (matchingOrders st date)
  have hupd : updateDailySummary st date now = .ok
      { st with summaries :=
          (upsertSummary st.summaries
            { date := startOfDayOf date
              totalTrades := (groupOrders (matchingOrders st date)).total_trades
              totalBuyQuantity := (groupOrders (matchingOrders st date)).total_buy_quantity
              totalSellQuantity := (groupOrders (matchingOrders st date)).total_sell_quantity
              uniqueSymbols := 0
              lastUpdated := now }) } := by
    simp only [updateDailySummary]
    rw [if_neg (by simp [hne]), if_pos (by rw [hg1, hg2, hg3, hfit1, hfit2, hfit3]; rfl)]
  rw [hg1, hg2, hg3] at hupd
  refine ⟨_, hupd, ?_⟩
  simp only [getDailySummary]
  rw [find?_upsertSummary st.summaries _ (startOfDayOf date) rfl]

theorem c5_witness :
    ∃ st2, updateDailySummary wStoreBuySell wDay wNow = .ok st2 ∧
      getDailySummary st2 wDay = .ok
        { date := ⟨2025, 1, 18, 0, 0, 0⟩
          totalTrades := 3
          totalBuyQuantity := 15
          totalSellQuantity := 7
          uniqueSymbols := 0
          lastUpdated := wNow } := by
  obtain ⟨st2, h1, h2⟩ := c5_daily_aggregation wStoreBuySell wDay wNow
    (by decide) (by decide) (by decide) (by decide)
  exact ⟨st2, h1, h2⟩

/-- C6: a day with no matching orders produces no summary write — the
pipeline returns no result document, the aggregator returns with the
store unchanged — and reading the summary of a day no summary was ever
written for fails with a not-found error instead of a zero summary. -/
theorem c6_empty_day_no_write (st : Store) (date now : DateTime)
    (hempty : (matchingOrders st date).isEmpty = true)
    (habsent : ∀ s ∈ st.summaries, s.date ≠ startOfDayOf date) :
    updateDailySummary st date now = .ok st ∧
    ∃ e, getDailySummary st date = .error e := by
  constructor
  · simp only [updateDailySummary]
    rw [if_pos hempty]
  · simp only [getDailySummary]
    have hfind : st.summaries.find? (fun s => s.date == startOfDayOf date) = none := by
      rw [List.find?_eq_none]
      intro x hx
      simpa using habsent x hx
    rw [hfind]
    exact ⟨_, rfl⟩

theorem c6_witness :
    updateDailySummary ⟨[], []⟩ wDay wNow = .ok ⟨[], []⟩ ∧
    ∃ e, getDailySummary ⟨[], []⟩ wDay = .error e :=
  c6_empty_day_no_write ⟨[], []⟩ wDay wNow (by decide) (by simp)

/-- C9: whenever the aggregator writes a summary, the distinct-symbol set
is accumulated by the pipeline's $addToSet stage, yet the stored
document's uniqueSymbols is the int32 zero value for every store — the
assignment from the aggregation result is commented out in the source. -/
theorem c9_uniqueSymbols_never_written (st : Store) (date now : DateTime)
    (hne : (matchingOrders st date).isEmpty = false)
    (hfit : (fitsInt32 (groupOrders (matchingOrders st date)).total_trades &&
             fitsInt32 (groupOrders (matchingOrders st date)).total_buy_quantity &&
             fitsInt32 (groupOrders (matchingOrders st date)).total_sell_quantity) = true) :
    ∃ st2 s, updateDailySummary st date now = .ok st2 ∧
      getDailySummary st2 date = .ok s ∧ s.uniqueSymbols = 0 := by
  have hupd : updateDailySummary st date now = .ok
      { st with summaries :=
          (upsertSummary st.summaries
            { date := startOfDayOf date
              totalTrades := (groupOrders (matchingOrders st date)).total_trades
              totalBuyQuantity := (groupOrders (matchingOrders st date)).total_buy_quantity
              totalSellQuantity := (groupOrders (matchingOrders st date)).total_sell_quantity
              uniqueSymbols := 0
              lastUpdated := now }) } := by
    simp only [updateDailySummary]
    rw [if_neg (by simp [hne]), if_pos hfit]
  refine ⟨_,
    { date := startOfDayOf date
      totalTrades := (groupOrders (matchingOrders st date)).total_trades
      totalBuyQuantity := (groupOrders (matchingOrders st date)).total_buy_quantity
      totalSellQuantity := (groupOrders (matchingOrders st date)).total_sell_quantity
      uniqueSymbols := 0
      lastUpdated := now }, hupd, ?_, rfl⟩
  simp only [getDailySummary]
  rw [find?_upsertSummary st.summaries _ (startOfDayOf date) rfl]

theorem c9_witness :
    ((groupOrders (matchingOrders wStoreTwoSymbols wDay)).unique_symbols.length = 2) ∧
    ∃ st2 s, updateDailySummary wStoreTwoSymbols wDay wNow = .ok st2 ∧
      getDailySummary st2 wDay = .ok s ∧ s.uniqueSymbols = 0 := by
  refine ⟨by decide, ?_⟩
  exact c9_uniqueSymbols_never_written wStoreTwoSymbols wDay wNow (by decide) (by decide)

/-- C7 counterexample: with a healthy connection and a valid date, the
orderbook path failing (here: no CSV files found for the target date)
does not terminate the process as failed — processFiles prints the
failure and returns success, so main completes normally.  This refutes
the claim that a no-files-found or aggregation failure terminates the
invocation as failed. -/
theorem c7_counterexample :
    mainInvocation (.ok ()) (.ok ()) (.ok ()) "2025-01-18"
        (.error "no CSV files found for date 2025-01-18") (.ok ()) =
      .completed ["failed to process orderbook files: no CSV files found for date 2025-01-18"] ∧
    MainResult.isFatal (.completed
      ["failed to process orderbook files: no CSV files found for date 2025-01-18"]) = false := by
  refine ⟨by decide, rfl⟩

/-- C7 amended: the invocation terminates as failed exactly when the
store connection, the profit/loss repository construction, the initial
profit/loss range query, or the date-argument parse fails; failures of
the orderbook file path (no files found included) and of the profit/loss
ingestion path are printed and swallowed, never failing the invocation. -/
theorem c7_fatal_iff_connection_or_date (c r g : Except String Unit) (ds : String)
    (ob pl : Except String Unit) :
    (mainInvocation c r g ds ob pl).isFatal = true ↔
      (exceptIsOk c = false ∨ exceptIsOk r = false ∨ exceptIsOk g = false ∨
       parseDateYMD ds = none) := by
  cases c with
  | error e => simp [mainInvocation, MainResult.isFatal, exceptIsOk]
  | ok u =>
    cases u
    cases r with
    | error e => simp [mainInvocation, MainResult.isFatal, exceptIsOk]
    | ok u =>
      cases u
      cases g with
      | error e => simp [mainInvocation, MainResult.isFatal, exceptIsOk]
      | ok u =>
        cases u
        cases hp : parseDateYMD ds with
        | none =>
          simp [mainInvocation, processFiles, hp, MainResult.isFatal, exceptIsOk]
        | some d =>
          simp [mainInvocation, processFiles, hp, MainResult.isFatal, exceptIsOk]

/-- C8 counterexample: the profit/loss file name for 18 Jan 2025 carries
the full four-digit year (%d on Year()), not the two-digit DD-MM-YY
rendering the claim asserts for it. -/
theorem c8_counterexample :
    GetFileNameForDate ⟨2025, 1, 18, 0, 0, 0⟩ = "profitLoss_18-01-2025.csv" ∧
    "profitLoss_" ++ renderDDMMYY ⟨2025, 1, 18, 0, 0, 0⟩ ++ ".csv" = "profitLoss_18-01-25.csv" ∧
    ("profitLoss_18-01-2025.csv" ≠ "profitLoss_18-01-25.csv") := by
  refine ⟨by decide, by decide, by decide⟩

/-- C8 amended: both discovery patterns embed the target date with the
full year: the order-book glob renders it as zero-padded DD-MM-YYYY
(layout 02-01-2006), and the profit/loss file name as DD-MM-<year>, the
year unpadded — identical to DD-MM-YYYY for every four-digit year. -/
theorem c8_full_year_in_both_patterns (d : DateTime) :
    orderBookPattern d = "orderbook_*" ++ renderDDMMYYYY d ++ "*.csv" ∧
    (1000 ≤ d.year → GetFileNameForDate d = "profitLoss_" ++ renderDDMMYYYY d ++ ".csv") := by
  constructor
  · rfl
  · intro hy
    have h4 : sprintfYear4 d.year = Nat.repr d.year := by
      rw [sprintfYear4, if_neg (by omega), if_neg (by omega), if_neg (by omega)]
    rw [GetFileNameForDate, renderDDMMYYYY, h4]
    simp [String.append_assoc]

theorem c8_witness :
    GetFileNameForDate ⟨2025, 1, 18, 0, 0, 0⟩ =
      "profitLoss_" ++ renderDDMMYYYY ⟨2025, 1, 18, 0, 0, 0⟩ ++ ".csv" :=
  (c8_full_year_in_both_patterns ⟨2025, 1, 18, 0, 0, 0⟩).2 (by decide)

/-- C10: a CSV-structural read failure (ErrFieldCount and the like) is
swallowed by the row loop: decoding behaves exactly as if the file ended
there, so when the rows before it decode and the summary step goes
through, the call succeeds with precisely those earlier rows persisted —
the malformed row and everything after it are dropped and the file-abort
guarantee does not extend to structural errors. -/
theorem c10_structural_error_truncates (good : List (List String)) (rest : List RawRow)
    (st : Store) (now : DateTime) (orders : List Order) (td : DateTime) (st2 : Store)
    (hdec : decodeRows (good.map RawRow.ok) = .ok (orders, td))
    (hne : orders.isEmpty = false)
    (hupd : updateDailySummary { st with orders := st.orders ++ orders } td now = .ok st2) :
    loadCSVFile (good.map RawRow.ok ++ RawRow.malformed :: rest) now st = (st2, none) ∧
    st2.orders = st.orders ++ orders := by
  constructor
  · simp only [loadCSVFile]
    rw [decodeRows_append_malformed, hdec]
    simp [hne, hupd]
  · rw [updateDailySummary_orders _ _ _ _ hupd]

theorem c10_witness :
    loadCSVFile [RawRow.ok wRow1, RawRow.malformed, RawRow.ok wRow1] wNow ⟨[], []⟩ =
      (⟨[wOrder1], [wSummary1]⟩, none) ∧
    (⟨[wOrder1], [wSummary1]⟩ : Store).orders = [] ++ [wOrder1] :=
  c10_structural_error_truncates [wRow1] [RawRow.ok wRow1] ⟨[], []⟩ wNow
    [wOrder1] wOrder1.timestamp ⟨[wOrder1], [wSummary1]⟩ rfl rfl rfl

end OB

